import Mathlib

/-!
Verification development for the postgres-mcp-server mediation layer
(`server.py`).  The request-sanitization and policy-enforcement pipeline is
embedded shallowly: Python strings become Lean `String`s, the JSON values
handled by `json.loads` become an inductive `JVal`, the database connection
becomes an explicit `Backend` record of fetch/execute functions, and every
tool body becomes a pure Lean function over those types.  All definitions
are executable.
-/

namespace PgMcp

/-- Python whitespace as recognised by `str.split()` / `str.strip()`
(ASCII fragment): space, tab, newline, carriage return, vertical tab,
form feed. -/
def pyWS (c : Char) : Bool :=
  c = ' ' || c = '\t' || c = '\n' || c = '\r' ||
    c = Char.ofNat 11 || c = Char.ofNat 12

/-- Python `str.strip()` (ASCII-whitespace fragment). -/
def pyStrip (s : String) : String :=
  (((s.toList.dropWhile pyWS).reverse.dropWhile pyWS).reverse).asString

/-- Python `s.lstrip().split(None, 1)[0]`: the first whitespace-delimited
token of `s`, or `""` when `s` is all whitespace. -/
def firstWord (s : String) : String :=
  ((s.toList.dropWhile pyWS).takeWhile fun c => !(pyWS c)).asString

/-- Python `s.startswith(pre)` (code-point-wise prefix test). -/
def pyStartsWith (s pre : String) : Bool :=
  pre.toList.isPrefixOf s.toList

/-- Python `needle in hay` on strings: contiguous-substring test. -/
def pyContains (hay needle : String) : Bool :=
  (List.range (hay.toList.length + 1)).any fun i =>
    needle.toList.isPrefixOf (hay.toList.drop i)

/-- server.py line 74. -/
def READ_ONLY_PREFIXES : List String := ["select", "show", "explain", "with"]

/-- server.py line 75 (`ALLOWED_SCHEMAS = {"public"}`). -/
def ALLOWED_SCHEMAS : List String := ["public"]

/-- Python `str.lower()` on one character (ASCII fragment). -/
def pyLowerChar (c : Char) : Char :=
  if 65 ≤ c.toNat && c.toNat ≤ 90 then Char.ofNat (c.toNat + 32) else c

/-- Python `str.lower()` (ASCII fragment). -/
def pyLower (s : String) : String :=
  (s.toList.map pyLowerChar).asString

/-- The local `head` of `is_read_only` (server.py line 79):
`sql.lstrip().split(None, 1)[0].lower() if sql.strip() else ""`. -/
def headToken (sql : String) : String :=
  if pyStrip sql = "" then "" else pyLower (firstWord sql)

/-- server.py lines 78-80.  Note that Python's `head.startswith(t)` with a
tuple `t` of prefixes is true when ANY of the prefixes matches. -/
def is_read_only (sql : String) : Bool :=
  (READ_ONLY_PREFIXES.any fun p => pyStartsWith (headToken sql) p) ||
    READ_ONLY_PREFIXES.contains (headToken sql)

/-- server.py lines 35-36: `sql.replace("\n", " ").strip()`. -/
def redact (sql : String) : String :=
  pyStrip ((sql.toList.map fun c => if c = '\n' then ' ' else c).asString)

/-- JSON values as produced by Python's `json.loads`.  Modelled fragment:
numbers are integers (float literals are outside the fragment) and string
escapes cover the single-character escapes, not `\uXXXX`.  `JVal` doubles as
the type of Python values handed to `parse_malformed_json` (`null` models
`None`). -/
inductive JVal where
  | null : JVal
  | bool (b : Bool) : JVal
  | num (n : Int) : JVal
  | str (s : String) : JVal
  | arr (elems : List JVal) : JVal
  | obj (entries : List (String × JVal)) : JVal

/-- Insertion into a Python dict rendered as an association list: an existing
key keeps its position and gets the new value, a new key is appended. -/
def dictInsert (d : List (String × JVal)) (k : String) (v : JVal) :
    List (String × JVal) :=
  match d with
  | [] => [(k, v)]
  | (k', v') :: rest =>
    if k' = k then (k, v) :: rest else (k', v') :: dictInsert rest k v

/-- Whitespace skipped by the JSON grammar. -/
def jsonWS (c : Char) : Bool := c = ' ' || c = '\t' || c = '\n' || c = '\r'

def skipWS (cs : List Char) : List Char := cs.dropWhile jsonWS

/-- The single-character JSON string escapes. -/
def jsonEsc (c : Char) : Option Char :=
  if c = '"' then some '"'
  else if c = '\\' then some '\\'
  else if c = '/' then some '/'
  else if c = 'b' then some (Char.ofNat 8)
  else if c = 'f' then some (Char.ofNat 12)
  else if c = 'n' then some '\n'
  else if c = 'r' then some '\r'
  else if c = 't' then some '\t'
  else none

/-- Parse the body of a JSON string literal (after the opening quote) up to
and including the closing quote.  Raw control characters are rejected, as in
strict `json.loads`. -/
def parseStrBody : List Char → Option (List Char × List Char)
  | [] => none
  | '"' :: rest => some ([], rest)
  | '\\' :: e :: rest =>
    match jsonEsc e with
    | some c => (parseStrBody rest).map fun p => (c :: p.1, p.2)
    | none => none
  | ['\\'] => none
  | c :: rest =>
    if c.toNat < 32 then none
    else (parseStrBody rest).map fun p => (c :: p.1, p.2)

/-- Accumulate a decimal digit run. -/
def digitsVal (acc : Int) : List Char → Int × List Char
  | c :: rest =>
    if c.isDigit then digitsVal (10 * acc + (c.toNat - 48 : Nat)) rest
    else (acc, c :: rest)
  | [] => (acc, [])

/-- Whether a float literal continues here (outside the modelled fragment). -/
def floatStart : List Char → Bool
  | c :: _ => c = '.' || c = 'e' || c = 'E'
  | [] => false

/-- JSON integer literal: `-? (0 | [1-9][0-9]*)`, rejecting a following
fraction or exponent. -/
def parseNum (cs : List Char) : Option (Int × List Char) :=
  let signed : Bool × List Char :=
    match cs with
    | '-' :: rest => (true, rest)
    | _ => (false, cs)
  match signed.2 with
  | [] => none
  | c :: rest =>
    if c = '0' then
      if floatStart rest then none else some (0, rest)
    else if c.isDigit then
      let p := digitsVal ((c.toNat - 48 : Nat) : Int) rest
      if floatStart p.2 then none
      else some (if signed.1 then -p.1 else p.1, p.2)
    else none

mutual

/-- Recursive-descent parser for the modelled `json.loads` fragment; `fuel`
bounds the recursion and is supplied generously by `json_loads`. -/
def parseJVal : Nat → List Char → Option (JVal × List Char)
  | 0, _ => none
  | fuel + 1, cs =>
    match skipWS cs with
    | 'n' :: 'u' :: 'l' :: 'l' :: rest => some (.null, rest)
    | 't' :: 'r' :: 'u' :: 'e' :: rest => some (.bool true, rest)
    | 'f' :: 'a' :: 'l' :: 's' :: 'e' :: rest => some (.bool false, rest)
    | '"' :: rest => (parseStrBody rest).map fun p => (.str p.1.asString, p.2)
    | '[' :: rest => parseArrBody fuel rest
    | '{' :: rest => parseObjBody fuel rest
    | cs' => (parseNum cs').map fun p => (.num p.1, p.2)

/-- Array elements after `[`. -/
def parseArrBody : Nat → List Char → Option (JVal × List Char)
  | 0, _ => none
  | fuel + 1, cs =>
    match skipWS cs with
    | ']' :: rest => some (.arr [], rest)
    | cs' =>
      match parseJVal fuel cs' with
      | none => none
      | some (v, rest) => parseArrRest fuel [v] rest

/-- `, value`* `]` after a first array element (accumulator reversed). -/
def parseArrRest : Nat → List JVal → List Char → Option (JVal × List Char)
  | 0, _, _ => none
  | fuel + 1, acc, cs =>
    match skipWS cs with
    | ']' :: rest => some (.arr acc.reverse, rest)
    | ',' :: rest =>
      match parseJVal fuel rest with
      | none => none
      | some (v, rest') => parseArrRest fuel (v :: acc) rest'
    | _ => none

/-- Object members after `{`. -/
def parseObjBody : Nat → List Char → Option (JVal × List Char)
  | 0, _ => none
  | fuel + 1, cs =>
    match skipWS cs with
    | '}' :: rest => some (.obj [], rest)
    | '"' :: rest =>
      match parseStrBody rest with
      | none => none
      | some (k, rest') => parseMember fuel [] k.asString rest'
    | _ => none

/-- `: value` after a member key; duplicate keys overwrite, as in
`json.loads`. -/
def parseMember : Nat → List (String × JVal) → String → List Char →
    Option (JVal × List Char)
  | 0, _, _, _ => none
  | fuel + 1, acc, k, cs =>
    match skipWS cs with
    | ':' :: rest =>
      match parseJVal fuel rest with
      | none => none
      | some (v, rest') => parseObjRest fuel (dictInsert acc k v) rest'
    | _ => none

/-- `, "key": value`* `}` after a member. -/
def parseObjRest : Nat → List (String × JVal) → List Char →
    Option (JVal × List Char)
  | 0, _, _ => none
  | fuel + 1, acc, cs =>
    match skipWS cs with
    | '}' :: rest => some (.obj acc, rest)
    | ',' :: rest =>
      match skipWS rest with
      | '"' :: rest' =>
        match parseStrBody rest' with
        | none => none
        | some (k, rest'') => parseMember fuel acc k.asString rest''
      | _ => none
    | _ => none

end

/-- `json.loads` (server.py lines 44, 52) on the modelled fragment: one value
followed by nothing but whitespace. -/
def json_loads (s : String) : Option JVal :=
  match parseJVal (2 * s.length + 4) s.toList with
  | some (v, rest) => if skipWS rest = [] then some v else none
  | none => none

/-- `json_str.replace("'", '"')` (server.py line 47). -/
def fixQuotes (s : String) : String :=
  (s.toList.map fun c => if c = '\'' then '"' else c).asString

/-- `[a-zA-Z_]` (start of the bare-word group). -/
def reWordStart (c : Char) : Bool := c.isAlpha || c = '_'

/-- `[\w.-]` (rest of the bare-word group; ASCII fragment of `\w`). -/
def reWordRest (c : Char) : Bool :=
  c.isAlphanum || c = '_' || c = '.' || c = '-'

/-- Match `\s*([a-zA-Z_][\w.-]*)\s*([,}])` (the bare-word pattern after its
colon) at the head of `cs`; on success return the word, the delimiter and
the remainder after the delimiter. -/
def bareMatch (cs : List Char) : Option (List Char × Char × List Char) :=
  match cs.dropWhile pyWS with
  | c :: rest =>
    if reWordStart c then
      let word := c :: rest.takeWhile reWordRest
      match (rest.dropWhile reWordRest).dropWhile pyWS with
      | d :: rest₂ => if d = ',' || d = '}' then some (word, d, rest₂) else none
      | [] => none
    else none
  | [] => none

/-- `re.sub(r':\s*([a-zA-Z_][\w.-]*)\s*([,}])', r': "\1"\2', s)` (server.py
lines 48-49) as a left-to-right scanner: at each colon try the tail of the
pattern; on a match emit `: "word"` plus the delimiter and resume after the
match.  `fuel` is at least the input length, so it never runs out. -/
def fixBareWordsAux (fuel : Nat) (cs : List Char) : List Char :=
  match fuel with
  | 0 => cs
  | fuel' + 1 =>
    match cs with
    | [] => []
    | ':' :: rest =>
      match bareMatch rest with
      | some (word, d, rest') =>
        ':' :: ' ' :: '"' :: (word ++ '"' :: d :: fixBareWordsAux fuel' rest')
      | none => ':' :: fixBareWordsAux fuel' rest
    | c :: rest => c :: fixBareWordsAux fuel' rest

def fixBareWords (s : String) : String :=
  (fixBareWordsAux s.toList.length s.toList).asString

/-- `re.sub(r",\s*X", "X", s)` for a closing delimiter `X` (server.py lines
50-51): drop a comma followed only by whitespace and the delimiter. -/
def stripCommaAux (close : Char) (fuel : Nat) (cs : List Char) : List Char :=
  match fuel with
  | 0 => cs
  | fuel' + 1 =>
    match cs with
    | [] => []
    | ',' :: rest =>
      match rest.dropWhile pyWS with
      | d :: rest' =>
        if d = close then close :: stripCommaAux close fuel' rest'
        else ',' :: stripCommaAux close fuel' rest
      | [] => ',' :: stripCommaAux close fuel' rest
    | c :: rest => c :: stripCommaAux close fuel' rest

def stripComma (close : Char) (s : String) : String :=
  (stripCommaAux close s.toList.length s.toList).asString

/-- Python `s.strip('{}')`. -/
def stripBraces (s : String) : String :=
  (((s.toList.dropWhile fun c => c = '{' || c = '}').reverse.dropWhile
    fun c => c = '{' || c = '}').reverse).asString

/-- Python `s.strip('"\'')`: surrounding quote characters removed. -/
def stripQuotes (s : String) : String :=
  (((s.toList.dropWhile fun c => c = '"' || c = '\'').reverse.dropWhile
    fun c => c = '"' || c = '\'').reverse).asString

/-- Split on every occurrence of `sep`, Python `str.split(sep)` style
(keeps empty pieces). -/
def splitChar (sep : Char) : List Char → List (List Char)
  | [] => [[]]
  | c :: rest =>
    let r := splitChar sep rest
    if c = sep then [] :: r
    else
      match r with
      | h :: t => (c :: h) :: t
      | [] => [[c]]

/-- Python `pair.split(sep, 1)` when `sep` occurs; `none` when it does not
(the `if ':' in pair` guard). -/
def splitFirst (sep : Char) : List Char → Option (List Char × List Char)
  | [] => none
  | c :: rest =>
    if c = sep then some ([], rest)
    else (splitFirst sep rest).map fun p => (c :: p.1, p.2)

/-- The manual fallback of `parse_malformed_json` (server.py lines 54-63):
strip outer braces, split on commas, split each pair on its first colon,
strip quotes/whitespace; values degrade to verbatim substrings. -/
def fallbackParse (s : String) : JVal :=
  let content := stripBraces (pyStrip s)
  if content = "" then .obj []
  else
    .obj ((splitChar ',' content.toList).foldl
      (fun acc pair =>
        match splitFirst ':' pair with
        | some kv =>
          dictInsert acc (stripQuotes (pyStrip kv.1.asString))
            (.str (stripQuotes (pyStrip kv.2.asString)))
        | none => acc)
      [])

/-- Python truthiness of a `JVal` (`not json_str`, `if not payload_dict`,
`if params`). -/
def pyTruthy : JVal → Bool
  | .null => false
  | .bool b => b
  | .num n => n != 0
  | .str s => s != ""
  | .arr l => !l.isEmpty
  | .obj l => !l.isEmpty

def JVal.isStr : JVal → Bool
  | .str _ => true
  | _ => false

def JVal.isObj : JVal → Bool
  | .obj _ => true
  | _ => false

/-- server.py lines 39-63: `parse_malformed_json`.  The argument models any
Python value (`JVal.null` is `None`); the guard rejects falsy or non-string
input, then the strict parse, the textual repairs and the manual fallback
are tried in order. -/
def parse_malformed_json (jsonStr : JVal) : JVal :=
  if !pyTruthy jsonStr || !jsonStr.isStr then .obj []
  else
    match jsonStr with
    | .str s =>
      match json_loads s with
      | some v => v
      | none =>
        let fixed := stripComma ']' (stripComma '}' (fixBareWords (fixQuotes s)))
        match json_loads fixed with
        | some v => v
        | none => fallbackParse s
    | _ => .obj []

example : json_loads "\x7b\"a\": 1\x7d" = some (.obj [("a", .num 1)]) := rfl
example : json_loads "  [1, -2, \"x\"] " =
    some (.arr [.num 1, .num (-2), .str "x"]) := rfl
example : json_loads "{schema: public}" = none := rfl
example : parse_malformed_json (.str "\x7b'schema': 'public', 'table': users\x7d") =
    .obj [("schema", .str "public"), ("table", .str "users")] := rfl
example : parse_malformed_json (.str "\x7b\"a\": 1,\x7d") = .obj [("a", .num 1)] := rfl
example : parse_malformed_json (.str "\x7ba: b") = .obj [("a", .str "b")] := rfl
example : parse_malformed_json (.str "") = .obj [] := rfl
example : parse_malformed_json .null = .obj [] := rfl
example : parse_malformed_json (.num 7) = .obj [] := rfl
example : parse_malformed_json (.str "1") = .num 1 := rfl

/-- Python `str.split()` with no argument: split on whitespace runs, no
empty pieces. -/
def pySplit (s : String) : List String :=
  let p := s.toList.foldr
    (fun c q =>
      if pyWS c then
        if q.1.isEmpty then (([] : List Char), q.2) else ([], q.1 :: q.2)
      else (c :: q.1, q.2))
    ([], [])
  ((if p.1.isEmpty then p.2 else p.1 :: p.2).map List.asString)

/-- After the optional sign of a Python int literal: decimal digits with
single underscores strictly between digits. -/
def pyIntDigitsOk : List Char → Bool
  | [] => false
  | c :: rest => c.isDigit && pyIntDigitsRestOk rest
where
  pyIntDigitsRestOk : List Char → Bool
  | [] => true
  | '_' :: c :: rest => c.isDigit && pyIntDigitsRestOk rest
  | ['_'] => false
  | c :: rest => c.isDigit && pyIntDigitsRestOk rest

/-- Python `int(tok)` for a whitespace-free token (the fragment reachable
from `str.split()` output): optional sign, then decimal digits with
single-underscore grouping.  The failure carries the modelled `ValueError`
message. -/
def pyInt (tok : String) : Except String Int :=
  let signedPart : Bool × List Char :=
    match tok.toList with
    | '-' :: rest => (true, rest)
    | '+' :: rest => (false, rest)
    | cs => (false, cs)
  if pyIntDigitsOk signedPart.2 then
    let v : Nat := (signedPart.2.filter fun c => c != '_').foldl
      (fun a c => 10 * a + (c.toNat - 48)) 0
    .ok (if signedPart.1 then -(v : Int) else (v : Int))
  else
    .error ("invalid literal for int() with base 10: '" ++ tok ++ "'")

/-- `int(result.split()[-1])` (server.py line 169): the affected-row count
parsed from the backend's status tag.  The failure carries the modelled
exception message: `IndexError` on an all-whitespace status, `ValueError`
on a non-integer last token. -/
def statusAffected (status : String) : Except String Int :=
  match (pySplit status).getLast? with
  | none => .error "list index out of range"
  | some tok => pyInt tok

/-- The caller-declared execution mode of `query`. -/
inductive Role where
  | read
  | write
deriving DecidableEq

/-- The `params` argument of `query`: absent (`None`), a mapping, or raw
text to be recovered. -/
inductive PyParams where
  | noParams
  | dictParams (entries : List (String × JVal))
  | strParams (s : String)

/-- server.py lines 150-153: `params` after recovery. -/
def recoveredParams : PyParams → JVal
  | .noParams => .obj []
  | .dictParams entries => .obj entries
  | .strParams s => parse_malformed_json (.str s)

/-- `*params.values() if params else []` (server.py lines 165, 168): the
positional arguments derived from the recovered params, in insertion order.
A truthy non-dict raises an `AttributeError` (message modelled), which the
surrounding `try` turns into an error result. -/
def paramValues (p : JVal) : Except String (List JVal) :=
  if !pyTruthy p then .ok []
  else
    match p with
    | .obj entries => .ok (entries.map fun kv => kv.2)
    | _ => .error "object has no attribute values"

/-- A row fetched from the database, shaped by `dict(r)`. -/
abbrev PgRow := List (String × JVal)

/-- The pooled connection as the tools see it: `fetch` returns rows or
raises, `execute` returns a status tag or raises (the `Except.error` string
is `str(e)`).  The two catalog queries of `describe_table` are the last two
fields. -/
structure Backend where
  fetch : String → List JVal → Except String (List PgRow)
  execute : String → List JVal → Except String String
  fetchColumns : String → String → List PgRow
  fetchPrimaryKey : String → String → List String

/-- The three result shapes of `query`.  The policy rejection (server.py
line 156) carries no sql key, hence the `Option` in `err`. -/
inductive PgResult where
  | rows (rows : List PgRow) (count : Nat) (sql : String)
  | exec (status : String) (affected : Int) (sql : String)
  | err (msg : String) (sql : Option String)

def PgResult.sqlField : PgResult → Option String
  | .rows _ _ s => some s
  | .exec _ _ s => some s
  | .err _ os => os

def PgResult.isErr : PgResult → Bool
  | .err _ _ => true
  | _ => false

def PgResult.isExec : PgResult → Bool
  | .exec _ _ _ => true
  | _ => false

/-- Python `str(limit)` for the `Optional[int]` limit: `None` or the decimal
rendering, exactly as the f-string interpolates it. -/
def pyStrLimit : Option Int → String
  | none => "None"
  | some n => toString n

/-- server.py lines 158-159: the result bounder.  A read-classified
statement whose lowercase text lacks the substring "limit" is wrapped in
`SELECT * FROM (...) as _sub LIMIT {limit}`; anything else passes through
unchanged. -/
def boundSql (sql : String) (limit : Option Int) : String :=
  if is_read_only sql && !pyContains (pyLower sql) "limit" then
    "SELECT * FROM (" ++ sql ++ ") as _sub LIMIT " ++ pyStrLimit limit
  else sql

/-- server.py lines 158-172: what `query` does once the policy gate admits
the statement — bounding, then the guarded execution against the pool, with
every exception converted to an error result carrying the redacted
(possibly rewritten) statement. -/
def runStatement (b : Backend) (sql : String) (params : PyParams)
    (limit : Option Int) : PgResult :=
  let sql' := boundSql sql limit
  if is_read_only sql' then
    match paramValues (recoveredParams params) with
    | .error e => .err e (some (redact sql'))
    | .ok vals =>
      match b.fetch sql' vals with
      | .ok rows => .rows rows rows.length (redact sql')
      | .error e => .err e (some (redact sql'))
  else
    match paramValues (recoveredParams params) with
    | .error e => .err e (some (redact sql'))
    | .ok vals =>
      match b.execute sql' vals with
      | .ok status =>
        match statusAffected status with
        | .ok n => .exec "ok" n (redact sql')
        | .error e => .err e (some (redact sql'))
      | .error e => .err e (some (redact sql'))

/-- server.py lines 143-172: the `query` tool (defaults: `role="read"`,
`limit=2000`).  In the source `params` is recovered before the gate;
recovery is pure and unused by the gate, so the model applies it where its
value is used. -/
def query (b : Backend) (sql : String) (params : PyParams) (role : Role)
    (limit : Option Int) : PgResult :=
  if role = .read && !is_read_only sql then
    .err "Write operation not allowed in read role" none
  else runStatement b sql params limit

/-- The pydantic model (server.py lines 69-71). -/
structure TableIdent where
  schema : String := "public"
  table : String

/-- Modelled pydantic construction `TableIdent(**payload_dict)` (server.py
line 103): `table` is required and must be textual, `schema` defaults to
"public"; extra keys are ignored.  A violation is the `ValidationError` the
source catches (messages modelled); pydantic's coercion subtleties are
outside the model. -/
def mkTableIdent (entries : List (String × JVal)) : Except String TableIdent :=
  match List.lookup "table" entries with
  | some (.str t) =>
    match List.lookup "schema" entries with
    | none => .ok { schema := "public", table := t }
    | some (.str s) => .ok { schema := s, table := t }
    | some _ => .error "schema: value is not a valid string"
  | some _ => .error "table: value is not a valid string"
  | none => .error "table: field required"

/-- The outcomes of `describe_table`: the metadata payload, a structured
error, or an uncaught Python exception. -/
inductive DescResult where
  | ok (columns : List PgRow) (primaryKey : List String)
  | err (msg : String)
  | raised (msg : String)

/-- server.py lines 107-138 for a validated identifier: the allow-list
check, then the two catalog queries. -/
def describeIdent (b : Backend) (ti : TableIdent) : DescResult :=
  if !ALLOWED_SCHEMAS.contains ti.schema then
    .err ("Schema '" ++ ti.schema ++ "' not allowed.")
  else
    .ok (b.fetchColumns ti.schema ti.table) (b.fetchPrimaryKey ti.schema ti.table)

/-- server.py lines 96-140: the `describe_table` tool over a payload that is
either a `TableIdent` or raw text.  A falsy recovery is rejected as a parse
error before validation; a truthy non-mapping recovery makes the `**` splat
raise a `TypeError` that `except ValidationError` does not catch. -/
def describe_table (b : Backend) (payload : Sum TableIdent String) : DescResult :=
  match payload with
  | .inl ti => describeIdent b ti
  | .inr s =>
    let d := parse_malformed_json (.str s)
    if !pyTruthy d then .err "Could not parse JSON payload"
    else
      match d with
      | .obj entries =>
        match mkTableIdent entries with
        | .ok ti => describeIdent b ti
        | .error e => .err ("Invalid payload format: " ++ e)
      | _ => .raised "TypeError: argument after ** must be a mapping"

/-- A backend that returns nothing: used to instantiate theorems about paths
that never touch the database. -/
def nullBackend : Backend where
  fetch := fun _ _ => .ok []
  execute := fun _ _ => .ok "SELECT 0"
  fetchColumns := fun _ _ => []
  fetchPrimaryKey := fun _ _ => []

/-- A backend whose every fetch yields the single row `{"?column?": 1}`, as
Postgres answers `select 1`. -/
def oneRowBackend : Backend where
  fetch := fun _ _ => .ok [[("?column?", .num 1)]]
  execute := fun _ _ => .ok "SELECT 1"
  fetchColumns := fun _ _ => []
  fetchPrimaryKey := fun _ _ => []

/-- A backend whose execute call answers the tag Postgres returns for DDL,
which carries no trailing row count. -/
def createTableBackend : Backend where
  fetch := fun _ _ => .ok []
  execute := fun _ _ => .ok "CREATE TABLE"
  fetchColumns := fun _ _ => []
  fetchPrimaryKey := fun _ _ => []

example : boundSql "select * from t" (some 50) =
    "SELECT * FROM (select * from t) as _sub LIMIT 50" := rfl
example : boundSql "select * from t limit 10" (some 50) =
    "select * from t limit 10" := rfl
example : boundSql "delete from t" (some 50) = "delete from t" := rfl
example : boundSql "select 1" none = "SELECT * FROM (select 1) as _sub LIMIT None" := rfl
example : statusAffected "INSERT 0 1" = .ok 1 := rfl
example : statusAffected "DELETE 5" = .ok 5 := rfl
example : statusAffected "CREATE TABLE" =
    .error "invalid literal for int() with base 10: 'TABLE'" := rfl
example : statusAffected "" = .error "list index out of range" := rfl
example : query nullBackend "delete from t" .noParams .read (some 2000) =
    .err "Write operation not allowed in read role" none := rfl
example : query oneRowBackend "select 1" .noParams .read (some 2000) =
    .rows [[("?column?", .num 1)]] 1
      "SELECT * FROM (select 1) as _sub LIMIT 2000" := rfl
example : describe_table nullBackend (.inl { schema := "secret", table := "t" }) =
    .err "Schema 'secret' not allowed." := rfl
example : describe_table nullBackend (.inr "{}") =
    .err "Could not parse JSON payload" := rfl
example : describe_table nullBackend (.inr "{schema: public, table: users}") =
    .ok [] [] := rfl

/-- A head token that is literally one of the four keywords is already
accepted by the startswith-any test (every string is a prefix of itself). -/
theorem contains_imp_startsWith (head : String)
    (h : READ_ONLY_PREFIXES.contains head = true) :
    (READ_ONLY_PREFIXES.any fun p => pyStartsWith head p) = true := by
  have hmem : head ∈ READ_ONLY_PREFIXES := by
    simpa using h
  fin_cases hmem <;> decide

/-- Whatever the backend answers or raises, `runStatement` stamps its result
with the redaction of the (possibly bounded) statement it executed. -/
theorem runStatement_sqlField (b : Backend) (sql : String) (p : PyParams)
    (l : Option Int) :
    (runStatement b sql p l).sqlField = some (redact (boundSql sql l)) := by
  simp only [runStatement]
  cases hpv : paramValues (recoveredParams p) with
  | error e =>
    cases hro : is_read_only (boundSql sql l) <;> simp [hro, hpv, PgResult.sqlField]
  | ok vals =>
    cases hro : is_read_only (boundSql sql l)
    · cases hex : b.execute (boundSql sql l) vals with
      | error e => simp [hro, hpv, hex, PgResult.sqlField]
      | ok status =>
        cases hst : statusAffected status <;>
          simp [hro, hpv, hex, hst, PgResult.sqlField]
    · cases hf : b.fetch (boundSql sql l) vals <;>
        simp [hro, hpv, hf, PgResult.sqlField]

example : is_read_only "select 1" = true := by decide
example : is_read_only "  SELECT 1" = true := by decide
example : is_read_only "with x as (select 1) select * from x" = true := by decide
example : is_read_only "EXPLAIN select 1" = true := by decide
example : is_read_only "insert into t values (1)" = false := by decide
example : is_read_only "" = false := by decide
example : is_read_only "selection 1" = true := by decide
example : redact "select *\nfrom t" = "select * from t" := by decide
example : pyContains "select * from t limit 10" "limit" = true := by decide
example : pyContains "select * from t" "limit" = false := by decide

/-- C1 (amended): for every string `sql`, `is_read_only sql` is true iff the
lowercased first whitespace-delimited token of the trimmed statement STARTS
WITH one of `select`, `show`, `explain`, `with` (the source compares with
`str.startswith`, not equality); empty or whitespace-only input returns
false. -/
theorem C1_is_read_only_startswith (sql : String) :
    (is_read_only sql =
      (READ_ONLY_PREFIXES.any fun p => pyStartsWith (headToken sql) p)) ∧
    (pyStrip sql = "" → is_read_only sql = false) := by
  constructor
  · unfold is_read_only
    cases hc : READ_ONLY_PREFIXES.contains (headToken sql) with
    | false => rw [Bool.or_false]
    | true =>
      rw [contains_imp_startsWith _ hc]
      rfl
  · intro h
    unfold is_read_only headToken
    rw [if_pos h]
    decide

/-- C1 witness: the amended classification evaluated at whitespace-only
input. -/
theorem C1_witness : is_read_only "   " = false :=
  (C1_is_read_only_startswith "   ").2 rfl

/-- C1 counterexample: `is_read_only "selection 1"` returns true although
the first token `selection` is not one of the four keywords — the claim's
"iff the first token is one of" is false as stated. -/
theorem C1_counterexample :
    is_read_only "selection 1" = true ∧
    headToken "selection 1" = "selection" ∧
    READ_ONLY_PREFIXES.contains "selection" = false := by
  refine ⟨by decide, by decide, by decide⟩

/-- C2 (amended): role `write` admits unconditionally and role `read` admits
iff the statement classifies read-only; on rejection `query` returns,
independently of the backend (the statement is never executed), the error
result with no sql key whose message is exactly
`Write operation not allowed in read role` — capital W, unlike the claim's
lowercase rendering. -/
theorem C2_policy_gate (b : Backend) (sql : String) (p : PyParams)
    (l : Option Int) :
    query b sql p .write l = runStatement b sql p l ∧
    (is_read_only sql = true → query b sql p .read l = runStatement b sql p l) ∧
    (is_read_only sql = false →
      query b sql p .read l =
        .err "Write operation not allowed in read role" none) := by
  refine ⟨?_, fun h => ?_, fun h => ?_⟩
  · unfold query
    rw [show (decide (Role.write = Role.read) && !is_read_only sql) = false from
      rfl, if_neg Bool.false_ne_true]
  · unfold query
    rw [h, show (decide (Role.read = Role.read) && !true) = false from rfl,
      if_neg Bool.false_ne_true]
  · unfold query
    rw [h, show (decide (Role.read = Role.read) && !false) = true from rfl,
      if_pos rfl]

/-- C2 witness: a mutating statement under the read role is rejected with
the fixed message and no backend interaction. -/
theorem C2_witness :
    query nullBackend "delete from users" .noParams .read (some 2000) =
      .err "Write operation not allowed in read role" none :=
  (C2_policy_gate nullBackend "delete from users" .noParams (some 2000)).2.2 rfl

/-- C2 counterexample: the rejection message the code produces starts with a
capital W, so it is not exactly the lowercase message the claim states. -/
theorem C2_counterexample :
    query nullBackend "delete from users" .noParams .read (some 2000) =
      .err "Write operation not allowed in read role" none ∧
    "Write operation not allowed in read role" ≠
      "write operation not allowed in read role" :=
  ⟨rfl, by decide⟩

/-- C3 (amended): a read-classified statement whose lowercase text lacks the
substring "limit" is rewritten to exactly
`SELECT * FROM (<sql>) as _sub LIMIT <L>` (the source's casing: uppercase
wrapper keywords, lowercase `as`), so
`boundSql "select * from t" 50 = "SELECT * FROM (select * from t) as _sub LIMIT 50"`;
a statement containing "limit" anywhere is left unmodified, and a statement
not classified read-only is never bounded. -/
theorem C3_bounder (sql : String) (L : Option Int) :
    (is_read_only sql = true → pyContains (pyLower sql) "limit" = false →
      boundSql sql L =
        "SELECT * FROM (" ++ sql ++ ") as _sub LIMIT " ++ pyStrLimit L) ∧
    (pyContains (pyLower sql) "limit" = true → boundSql sql L = sql) ∧
    (is_read_only sql = false → boundSql sql L = sql) ∧
    boundSql "select * from t" (some 50) =
      "SELECT * FROM (select * from t) as _sub LIMIT 50" := by
  refine ⟨fun h1 h2 => ?_, fun h => ?_, fun h => ?_, rfl⟩
  · simp [boundSql, h1, h2]
  · simp [boundSql, h]
  · simp [boundSql, h]

/-- C3 witness: an already-limited statement passes through unchanged. -/
theorem C3_witness :
    boundSql "select * from t limit 10" (some 50) = "select * from t limit 10" :=
  (C3_bounder "select * from t limit 10" (some 50)).2.1 rfl

/-- C3 counterexample: the wrapper the code emits is
`SELECT * FROM (...) as _sub LIMIT 50`, not the all-lowercase string
equation the claim asserts. -/
theorem C3_counterexample :
    boundSql "select * from t" (some 50) =
      "SELECT * FROM (select * from t) as _sub LIMIT 50" ∧
    "SELECT * FROM (select * from t) as _sub LIMIT 50" ≠
      "select * from (select * from t) as _sub LIMIT 50" :=
  ⟨rfl, by decide⟩

/-- C4 (amended): `query("select 1", role="read")` (default limit 2000)
returns the backend's single row with count 1, but its sql field is the
redacted REWRITTEN statement `SELECT * FROM (select 1) as _sub LIMIT 2000`,
not the original caller-supplied text. -/
theorem C4_select_one (b : Backend) (r : PgRow)
    (h : b.fetch "SELECT * FROM (select 1) as _sub LIMIT 2000" [] = .ok [r]) :
    query b "select 1" .noParams .read (some 2000) =
      .rows [r] 1 "SELECT * FROM (select 1) as _sub LIMIT 2000" := by
  have hq : query b "select 1" .noParams .read (some 2000) =
      (match b.fetch "SELECT * FROM (select 1) as _sub LIMIT 2000"
          ([] : List JVal) with
        | .ok rows =>
          PgResult.rows rows rows.length
            "SELECT * FROM (select 1) as _sub LIMIT 2000"
        | .error e =>
          PgResult.err e (some "SELECT * FROM (select 1) as _sub LIMIT 2000")) :=
    rfl
  rw [hq, h]
  rfl

/-- C4 witness: the theorem applied to a backend answering the canonical
`?column? = 1` row. -/
theorem C4_witness :
    query oneRowBackend "select 1" .noParams .read (some 2000) =
      .rows [[("?column?", JVal.num 1)]] 1
        "SELECT * FROM (select 1) as _sub LIMIT 2000" :=
  C4_select_one oneRowBackend [("?column?", JVal.num 1)] rfl

/-- C4 counterexample: the sql field of the successful read result is the
rewritten statement, not the claimed original text "select 1". -/
theorem C4_counterexample :
    (query oneRowBackend "select 1" .noParams .read (some 2000)).sqlField =
      some "SELECT * FROM (select 1) as _sub LIMIT 2000" ∧
    (query oneRowBackend "select 1" .noParams .read (some 2000)).sqlField ≠
      some "select 1" :=
  ⟨rfl, by decide⟩

/-- C5 (amended): `parse_malformed_json` is total (it is a plain function of
this model, mirroring the source's catch-all repairs and fallback) and every
input that is empty, absent or not string-typed yields the empty mapping;
its codomain, however, is all JSON values, not mappings alone — the
strict-parse path returns whatever a valid JSON input encodes. -/
theorem C5_guard (v : JVal) (h : pyTruthy v = false ∨ v.isStr = false) :
    parse_malformed_json v = .obj [] := by
  unfold parse_malformed_json
  rcases h with h | h <;> simp [h]

/-- C5 witness: the guard evaluated at `None`. -/
theorem C5_witness : parse_malformed_json .null = .obj [] :=
  C5_guard .null (Or.inl rfl)

/-- C5 counterexample: on the valid-JSON string "1" the function returns the
number 1, which is not a mapping — refuting "total function from string or
null to mapping" as stated. -/
theorem C5_counterexample :
    parse_malformed_json (.str "1") = .num 1 ∧
    (parse_malformed_json (.str "1")).isObj = false :=
  ⟨rfl, rfl⟩

/-- C6 (amended): a describe request whose identifier schema is outside the
allow-list `{"public"}` is rejected — on both payload forms — with exactly
the message `Schema '<schema>' not allowed.` (capital S, unlike the claim's
lowercase rendering), independently of the backend: no catalog query is
issued. -/
theorem C6_schema_allowlist (b : Backend) (ti : TableIdent)
    (h : ALLOWED_SCHEMAS.contains ti.schema = false) :
    describe_table b (.inl ti) =
      .err ("Schema '" ++ ti.schema ++ "' not allowed.") ∧
    ∀ s entries, parse_malformed_json (.str s) = .obj entries →
      pyTruthy (.obj entries) = true → mkTableIdent entries = .ok ti →
      describe_table b (.inr s) =
        .err ("Schema '" ++ ti.schema ++ "' not allowed.") := by
  constructor
  · simp [describe_table, describeIdent]
    simpa using h
  · intro s entries hp ht hm
    simp [describe_table, describeIdent, hp, ht, hm]
    simpa using h

/-- C6 witness: schema "secret" is rejected with the exact message. -/
theorem C6_witness :
    describe_table nullBackend (.inl { schema := "secret", table := "t" }) =
      .err "Schema 'secret' not allowed." :=
  (C6_schema_allowlist nullBackend { schema := "secret", table := "t" } rfl).1

/-- C6 counterexample: the message the code produces starts with a capital
S, so schema "secret" does not yield the claim's lowercase message. -/
theorem C6_counterexample :
    describe_table nullBackend (.inl { schema := "secret", table := "t" }) =
      .err "Schema 'secret' not allowed." ∧
    "Schema 'secret' not allowed." ≠ "schema 'secret' not allowed." :=
  ⟨rfl, by decide⟩

/-- C7 (amended): every string payload whose JSON recovery is the empty
mapping is rejected, before identifier validation and independently of the
backend (nothing raised, no catalog query), with exactly
`Could not parse JSON payload` — capital C, unlike the claim's lowercase
rendering. -/
theorem C7_parse_error (b : Backend) (s : String)
    (h : parse_malformed_json (.str s) = .obj []) :
    describe_table b (.inr s) = .err "Could not parse JSON payload" := by
  simp [describe_table, h, pyTruthy]

/-- C7 witness: the payload "{}" recovers to the empty mapping and is
rejected as a parse error. -/
theorem C7_witness :
    describe_table nullBackend (.inr "{}") = .err "Could not parse JSON payload" :=
  C7_parse_error nullBackend "{}" rfl

/-- C7 counterexample: the parse-error message starts with a capital C, so
it is not exactly the lowercase message the claim states. -/
theorem C7_counterexample :
    describe_table nullBackend (.inr "{}") =
      .err "Could not parse JSON payload" ∧
    "Could not parse JSON payload" ≠ "could not parse JSON payload" :=
  ⟨rfl, by decide⟩

/-- C8: on every string that strict-parses as a JSON object,
`parse_malformed_json` returns exactly the strict decoding (server.py lines
43-44: the repairs and the fallback are never reached). -/
theorem C8_strict_json (s : String) (entries : List (String × JVal))
    (h : json_loads s = some (.obj entries)) :
    parse_malformed_json (.str s) = .obj entries := by
  have hne : s ≠ "" := by
    intro he
    subst he
    exact Option.noConfusion (show (none : Option JVal) = some (JVal.obj entries) from h)
  unfold parse_malformed_json
  simp [JVal.isStr, pyTruthy, hne, h]

/-- C8 witness: a well-formed object payload decodes strictly. -/
theorem C8_witness :
    parse_malformed_json (.str "\x7b\"schema\": \"public\", \"table\": \"users\"\x7d") =
      .obj [("schema", .str "public"), ("table", .str "users")] :=
  C8_strict_json _ _ rfl

/-- C9: for a mutating statement admitted under role `write`, if the status
tag the backend returns does not end in a token accepted by Python's
`int()` — formalizing the claim's "whitespace-delimited decimal-integer
token", e.g. "CREATE TABLE" — then `query` returns an error result carrying
{error, sql}, not an exec result, although the statement was executed. -/
theorem C9_bad_status_tag (b : Backend) (sql : String) (p : PyParams)
    (l : Option Int) (vals : List JVal) (status e : String)
    (hro : is_read_only sql = false)
    (hvals : paramValues (recoveredParams p) = .ok vals)
    (hexec : b.execute sql vals = .ok status)
    (hst : statusAffected status = .error e) :
    query b sql p .write l = .err e (some (redact sql)) ∧
    (query b sql p .write l).isExec = false := by
  have hb : boundSql sql l = sql := by simp [boundSql, hro]
  have hq : query b sql p .write l = runStatement b sql p l := by
    unfold query
    rw [show (decide (Role.write = Role.read) && !is_read_only sql) = false from
      rfl, if_neg Bool.false_ne_true]
  have hr : runStatement b sql p l = .err e (some (redact sql)) := by
    simp only [runStatement, hb, hro, hvals, hexec, hst]
    rw [if_neg Bool.false_ne_true]
  exact ⟨hq.trans hr, by rw [hq, hr]; rfl⟩

/-- C9 witness: `create table` under role write with status tag
"CREATE TABLE" yields the ValueError-shaped error result. -/
theorem C9_witness :
    query createTableBackend "create table t (a int)" .noParams .write
        (some 2000) =
      .err "invalid literal for int() with base 10: 'TABLE'"
        (some "create table t (a int)") :=
  (C9_bad_status_tag createTableBackend "create table t (a int)" .noParams
    (some 2000) [] "CREATE TABLE"
    "invalid literal for int() with base 10: 'TABLE'" rfl rfl rfl rfl).1

/-- C10: `query` does not validate the limit — for every read-classified
statement without "limit" and every limit value, including `None`
(`pyStrLimit none = "None"`) and non-positive integers, the textual
rendering is interpolated verbatim into the rewritten statement, and the
statement `query` hands the backend is exactly that rewrite (its redaction
is the result's sql field for every backend and params). -/
theorem C10_limit_unvalidated (sql : String) (l : Option Int)
    (hro : is_read_only sql = true)
    (hnl : pyContains (pyLower sql) "limit" = false) :
    boundSql sql l =
      "SELECT * FROM (" ++ sql ++ ") as _sub LIMIT " ++ pyStrLimit l ∧
    pyStrLimit none = "None" ∧
    ∀ b p, (query b sql p .read l).sqlField = some (redact (boundSql sql l)) := by
  refine ⟨by simp [boundSql, hro, hnl], rfl, fun b p => ?_⟩
  have hq : query b sql p .read l = runStatement b sql p l := by
    unfold query
    rw [hro, show (decide (Role.read = Role.read) && !true) = false from rfl,
      if_neg Bool.false_ne_true]
  rw [hq, runStatement_sqlField]

/-- C10 witness: `limit=None` is interpolated verbatim, producing a
statement ending in `LIMIT None`. -/
theorem C10_witness :
    boundSql "select * from t" none =
      "SELECT * FROM (" ++ "select * from t" ++ ") as _sub LIMIT " ++
        pyStrLimit none :=
  (C10_limit_unvalidated "select * from t" none rfl rfl).1

end PgMcp
